import Mathlib

/-!
Verification of the etf-modeling repository (src/main.py, src/scrapers.py).

The development shallowly embeds the pure data flow of the scraper:

* Browser-dependent primitives (Selenium element queries, clicks, waits) are
  modelled as oracle functions supplied through environment structures; the
  embedded definitions reproduce the control flow of the Python methods on
  top of those oracles.
* Python `None` and exceptions are modelled with `Option` and `Except`.
* Python floats (the `Percentage` values) are modelled as `Rat`; only
  ordering comparisons on them occur in the embedded code.
* Several operations are imported by `main.py` from the `scrapers` module
  but are not defined there (the module only defines `VanguardETFScraper`).
  Those operations are modelled from the specification text and are marked
  `Modelled from the spec:` in their doc comments.
-/

/-! ### String helpers (substring containment, Python-style predicates) -/

/-- `starts_with_chars sub l` holds when `sub` is a prefix of `l`. -/
def starts_with_chars : List Char → List Char → Bool
  | [], _ => true
  | _ :: _, [] => false
  | a :: as, b :: bs => a == b && starts_with_chars as bs

/-- `chars_contain l sub`: `sub` occurs contiguously inside `l`
(the Python `sub in s` test on the underlying characters). -/
def chars_contain : List Char → List Char → Bool
  | [], sub => sub.isEmpty
  | l@(_ :: rest), sub => starts_with_chars sub l || chars_contain rest sub

/-- Python `sub in s` substring test. -/
def str_contains (s sub : String) : Bool :=
  chars_contain s.toList sub.toList

/-- Lower-case every character (Python `s.lower()`). -/
def lower_str (s : String) : String :=
  ⟨s.data.map Char.toLower⟩

/-- Drop leading whitespace characters. -/
def drop_ws : List Char → List Char
  | [] => []
  | c :: rest => if c.isWhitespace then drop_ws rest else c :: rest

/-- Python `s.strip()`: drop leading and trailing whitespace. -/
def py_strip (s : String) : String :=
  ⟨(drop_ws (drop_ws s.data.reverse).reverse)⟩

/-- Split a character list at whitespace; `cur` holds the reversed
characters of the word being read. -/
def split_ws (cur : List Char) : List Char → List (List Char)
  | [] => [cur.reverse]
  | c :: rest =>
    if c.isWhitespace then cur.reverse :: split_ws [] rest
    else split_ws (c :: cur) rest

/-- Join words with single spaces. -/
def intercalate_space : List (List Char) → List Char
  | [] => []
  | [w] => w
  | w :: ws => w ++ ' ' :: intercalate_space ws

/-- Python `s.endswith("%")`: the last character is `%`. -/
def ends_with_pct (s : String) : Bool :=
  match s.toList.getLast? with
  | some c => c == '%'
  | none => false

/-- Number of `.` characters in a character list. -/
def count_dots (l : List Char) : Nat :=
  l.foldl (fun n c => if c == '.' then n + 1 else n) 0

/-- A bare decimal numeral: nonempty, only digits and at most one dot,
and at least one digit. -/
def is_bare_decimal (s : String) : Bool :=
  let cs := s.toList
  !cs.isEmpty && cs.all (fun c => c.isDigit || c == '.')
    && cs.any (fun c => c.isDigit) && decide (count_dots cs ≤ 1)

/-! ### Spec-modelled components missing from src/

`main.py` imports `VANGUARD_DEFAULT_URL`, `dismiss_banners`,
`ensure_on_holdings_section`, `find_holdings_table`, `parse_ticker_weight`
and `scrape_all_pages_progressive` from the `scrapers` module, but
`src/scrapers.py` defines none of them.  The components below are modelled
from the specification text (sections 3, 4.1, 4.2, 4.6 and 4.8). -/

/-- Modelled from the spec: the Text Normalizer of section 4.1 (the
definition is part of the module `main.py` imports from, absent from src/).
Collapses whitespace runs to one space, trims, lower-cases. -/
def normalize_text (s : String) : String :=
  ⟨intercalate_space
    ((split_ws [] ((lower_str s).data)).filter (fun w => w ≠ []))⟩

/-- Modelled from the spec: the canonical column roles of section 3. -/
inductive ColumnRole where
  | identifier
  | weight
  | name
deriving DecidableEq

/-- Modelled from the spec: the alias table of section 3.  The Weight
aliases are the ones the spec lists; Identifier and Name aliases follow the
end-to-end scenario of section 8 (header Ticker matches Identifier, header
Name matches Name). -/
def role_aliases : ColumnRole → List String
  | ColumnRole.identifier => ["ticker", "symbol"]
  | ColumnRole.weight => ["% of fund", "% of net assets", "weight", "% of etf"]
  | ColumnRole.name => ["name"]

/-- Modelled from the spec: the Semantic Column Matcher of section 4.2 (part
of the module missing from src/).  Returns the index of the first header
whose normalized form contains any alias of the role, absent otherwise. -/
def match_role (role : ColumnRole) (headers : List String) : Option Nat :=
  headers.findIdx? (fun h =>
    (role_aliases role).any (fun a => str_contains (normalize_text h) (normalize_text a)))

/-- Modelled from the spec: the persisted record unit of section 3:
`(identifier, weight, name or absent)`. -/
structure HoldingRecord where
  identifier : String
  weight : String
  name : Option String
deriving DecidableEq

/-- Modelled from the spec: the weight normalization step of section 4.6
(part of the row-to-record projection `parse_ticker_weight`, which `main.py`
imports but src/ does not define): if the trimmed weight is non-empty, has
no `%` suffix and is a bare decimal, append `%`; otherwise leave it as is. -/
def normalize_weight (w : String) : String :=
  if !(w == "") && !(ends_with_pct w) && is_bare_decimal w then w ++ "%" else w

/-- Modelled from the spec: the row-to-record projection
`parse_ticker_weight` of section 4.6 (imported by `main.py`, absent from
src/).  Resolves the Identifier and Weight indices once via the Matcher,
failing the page when either is absent; skips rows whose cell count does not
reach the highest required column index; trims the identifier and weight
cells; drops rows whose trimmed identifier is empty; normalizes the weight;
takes the name from the Name column when that role resolves. -/
def parse_ticker_weight (headers : List String) (rows : List (List String)) :
    Option (List HoldingRecord) :=
  match match_role ColumnRole.identifier headers, match_role ColumnRole.weight headers with
  | some ti, some wi =>
    some (rows.filterMap (fun row =>
      if row.length < max ti wi + 1 then none
      else if py_strip (row.getD ti "") == "" then none
      else some ⟨py_strip (row.getD ti ""),
                 normalize_weight (py_strip (row.getD wi "")),
                 (match_role ColumnRole.name headers).map
                   (fun i => py_strip (row.getD i ""))⟩))
  | _, _ => none

/-- Outcome of processing one page in the progressive scraper: either the
page yields its records, or processing the page fails. -/
inductive PageResult where
  | ok (records : List HoldingRecord)
  | fail
deriving DecidableEq

/-- Modelled from the spec: the per-page persistence loop of
`scrape_all_pages_progressive` (imported by `main.py`, absent from src/).
Per section 4.8, each page's records are appended to the output file before
the navigation to the next page begins; a failure while processing a page
ends the run with the file in its last flushed state.  The accumulator
`file` is the durable file content. -/
def scrape_progressive_file (file : List HoldingRecord) :
    List PageResult → List HoldingRecord
  | [] => file
  | PageResult.ok records :: rest => scrape_progressive_file (file ++ records) rest
  | PageResult.fail :: _ => file

/-- Modelled from the spec: `scrape_all_pages_progressive` run over a
schedule of page outcomes, starting from an empty output file. -/
def scrape_all_pages_progressive (schedule : List PageResult) : List HoldingRecord :=
  scrape_progressive_file [] schedule

/-! ### Source embedding: src/scrapers.py -/

/-- A rendered page element as the scraper sees it: a tag name and its
visible text (`element.tag_name`, `element.text`). -/
structure PageEl where
  tag : String
  text : String
deriving DecidableEq

/-- The keyword list of `find_angular_holdings_table`
(src/scrapers.py lines 378-388). -/
def holdings_keywords : List String :=
  ["ticker", "symbol", "%", "percentage", "holding", "equity"]

/-- The keyword test of `find_angular_holdings_table`: the lowercased table
text contains any of the holdings keywords. -/
def looks_like_holdings_table (t : PageEl) : Bool :=
  holdings_keywords.any (fun k => str_contains (lower_str t.text) k)

/-- The component scan of `find_angular_holdings_table`
(src/scrapers.py lines 372-392): for each Angular component in order, for
each of its tables in order, return the first table passing the keyword
test. -/
def find_keyword_table : List (List PageEl) → Option PageEl
  | [] => none
  | comp :: rest =>
    match comp.find? looks_like_holdings_table with
    | some t => some t
    | none => find_keyword_table rest

/-- The fallback filter of `find_angular_holdings_table`
(src/scrapers.py lines 398-400): an element whose tag is table, tbody or
tr. -/
def is_table_like (e : PageEl) : Bool :=
  e.tag == "table" || e.tag == "tbody" || e.tag == "tr"

/-- `find_angular_holdings_table` (src/scrapers.py lines 362-405):
first the keyword scan over Angular components; when it yields nothing, the
first table-like element of the percent-or-ngcontent query; `None`
otherwise.  `components` holds, per Angular component, the tables found
inside it; `fallback_elements` is the element list of the alternative XPath
query, in document order. -/
def find_angular_holdings_table (components : List (List PageEl))
    (fallback_elements : List PageEl) : Option PageEl :=
  match find_keyword_table components with
  | some t => some t
  | none => fallback_elements.find? is_table_like

/-- The enabled/displayed state of a candidate next-page control
(`element.is_enabled()`, `element.is_displayed()`). -/
structure Control where
  enabled : Bool
  displayed : Bool
deriving DecidableEq

/-- The probe selector list of `go_to_next_page` (src/scrapers.py lines
475-486).  Quote characters inside the selector texts are omitted; the
selectors only act as opaque keys of the element lookup. -/
def next_selectors : List String :=
  ["//button[contains(text(), Next)]",
   "//a[contains(text(), Next)]",
   "//button[@aria-label=Next page]",
   "//button[@aria-label=Go to next page]",
   ".pagination-next",
   ".next-page",
   "[data-testid*=next]",
   "//button[contains(@class, next)]",
   ".pager-next",
   "//span[contains(text(), >)]/parent::button"]

/-- `go_to_next_page` (src/scrapers.py lines 471-516): probe the selectors
in order; the first selector that finds an element checks that element for
enabled and displayed, clicking it and returning True when both hold; a
selector that finds nothing, or whose element is not enabled and displayed,
falls through to the next selector; False when the list is exhausted.
`find_element` gives, per selector, the element the driver finds. -/
def go_to_next_page (find_element : String → Option Control) : Bool :=
  next_selectors.any (fun s =>
    match find_element s with
    | some c => c.enabled && c.displayed
    | none => false)

/-- A Python runtime error, as far as the embedding distinguishes them. -/
inductive PyErr where
  | attributeError (msg : String)
  | importError (name : String)
  | timeoutError (msg : String)
deriving DecidableEq

/-- One holdings dictionary appended by `extract_holdings_from_current_page`
(src/scrapers.py lines 344-350): Ticker, Name and Percentage keys. -/
structure Holding where
  ticker : String
  name : String
  percentage : Rat
deriving DecidableEq

/-- The row loop of `extract_holdings_from_current_page` (src/scrapers.py
lines 338-357).  Each row is represented by the `(ticker, name, percentage)`
triple `extract_holding_data_from_row` computes for it (the regex internals
of that helper stay behind this interface); a row contributes a record only
when its ticker is non-empty and its percentage is not `None`. -/
def build_page_holdings (parsed_rows : List (String × String × Option Rat)) :
    List Holding :=
  parsed_rows.filterMap (fun pr =>
    match pr with
    | (t, n, some p) =>
      if t == "" then none
      else some ⟨py_strip t, if n == "" then "" else py_strip n, p⟩
    | (_, _, none) => none)

/-- `extract_holdings_from_current_page` (src/scrapers.py lines 268-360):
the body accumulates the local `holdings` list but the function has no
return statement, so every call returns Python `None` — the accumulated
list is discarded. -/
def extract_holdings_from_current_page
    (parsed_rows : List (String × String × Option Rat)) :
    Option (List Holding) :=
  let holdings := build_page_holdings parsed_rows
  none

/-- Outcomes of the browser-dependent steps of `scrape_paginated_holdings`,
per page number: the `wait_for_holdings_table` call (which may raise — the
method is not defined anywhere in the class), the value
`extract_holdings_from_current_page` returns, and the element lookup
`go_to_next_page` performs per probe selector. -/
structure ScrapeEnv where
  wait_for_holdings_table : Nat → Except PyErr Bool
  extract_holdings : Nat → Option (List Holding)
  find_next_element : Nat → String → Option Control

/-- The page loop of `scrape_paginated_holdings` (src/scrapers.py lines
203-231), unrolled on the remaining page budget: wait for the table (break
on False, propagate a raise), extract the page holdings (break when `None`
or empty), extend the accumulator, and continue while `go_to_next_page`
succeeds.  Returns the accumulated holdings (or the propagated error)
together with the number of loop iterations begun. -/
def scrape_pages : ScrapeEnv → Nat → Nat → Except PyErr (List Holding) × Nat
  | _, 0, _ => (Except.ok [], 0)
  | env, fuel + 1, page =>
    match env.wait_for_holdings_table page with
    | Except.error e => (Except.error e, 1)
    | Except.ok false => (Except.ok [], 1)
    | Except.ok true =>
      match env.extract_holdings page with
      | none => (Except.ok [], 1)
      | some page_holdings =>
        if page_holdings.isEmpty then (Except.ok [], 1)
        else if go_to_next_page (env.find_next_element page) then
          match scrape_pages env fuel (page + 1) with
          | (Except.ok rest, n) => (Except.ok (page_holdings ++ rest), n + 1)
          | (Except.error e, n) => (Except.error e, n + 1)
        else (Except.ok page_holdings, 1)

/-- The safety limit `max_pages = 50` of `scrape_paginated_holdings`
(src/scrapers.py line 201). -/
def max_pages : Nat := 50

/-- `scrape_paginated_holdings` (src/scrapers.py lines 197-233): run the
page loop from page 1 under the safety limit. -/
def scrape_paginated_holdings (env : ScrapeEnv) : Except PyErr (List Holding) :=
  (scrape_pages env max_pages 1).1

/-- Number of page iterations a run of `scrape_paginated_holdings` begins. -/
def pages_scraped (env : ScrapeEnv) : Nat :=
  (scrape_pages env max_pages 1).2

/-- The error every call of `self.wait_for_holdings_table()` raises:
the class `VanguardETFScraper` never defines that method
(src/scrapers.py line 207 calls it; no `def wait_for_holdings_table`
exists in the file). -/
def wait_attribute_error : PyErr :=
  PyErr.attributeError
    "VanguardETFScraper object has no attribute wait_for_holdings_table"

/-- The scrape environment the shipped class actually produces: the wait
step always raises `AttributeError` (the method is undefined), extraction
runs `extract_holdings_from_current_page` on the page rows, and the
next-control lookup is browser state. -/
def actual_env (pages : Nat → List (String × String × Option Rat))
    (find_next : Nat → String → Option Control) : ScrapeEnv :=
  ⟨fun _ => Except.error wait_attribute_error,
   fun page => extract_holdings_from_current_page (pages page),
   find_next⟩

/-- A pandas DataFrame, reduced to what the scraper observes of it: the
column labels and the row records. -/
structure DF where
  columns : List String
  rows : List Holding
deriving DecidableEq

/-- The empty DataFrame every failure path of `scrape_portfolio_composition`
returns: `pd.DataFrame(columns=["Ticker", "Percentage", "Name"])`
(src/scrapers.py lines 66, 71, 86, 90). -/
def empty_holdings_df : DF := ⟨["Ticker", "Percentage", "Name"], []⟩

/-- The descending-Percentage order of the
`df.sort_values("Percentage", ascending=False)` call
(src/scrapers.py line 79): `a` may precede `b` when the percentage of `b`
does not exceed the percentage of `a`. -/
def holding_desc (a b : Holding) : Prop :=
  b.percentage ≤ a.percentage

instance : DecidableRel holding_desc :=
  fun a b => inferInstanceAs (Decidable (b.percentage ≤ a.percentage))

instance : IsTotal Holding holding_desc :=
  ⟨fun a b => le_total b.percentage a.percentage⟩

instance : IsTrans Holding holding_desc :=
  ⟨fun _ _ _ hab hbc => le_trans hbc hab⟩

/-- The sort of `scrape_portfolio_composition` (src/scrapers.py line 79):
`df.sort_values("Percentage", ascending=False)`, an order by the Percentage
value descending. -/
def sort_by_percentage_desc (data : List Holding) : List Holding :=
  data.insertionSort holding_desc

/-- The DataFrame built on the success path of
`scrape_portfolio_composition` (src/scrapers.py lines 77-83):
`pd.DataFrame(portfolio_data)` over the Ticker/Name/Percentage
dictionaries, sorted by Percentage descending. -/
def success_df (data : List Holding) : DF :=
  ⟨["Ticker", "Name", "Percentage"], sort_by_percentage_desc data⟩

/-- Outcomes of the browser-dependent steps of
`scrape_portfolio_composition`: the page load plus body wait (lines 56-61,
may raise), the boolean results of `navigate_to_holding_details` and
`navigate_to_equity_section` (both catch their own exceptions and return a
boolean), and the paginated-scrape environment. -/
structure CompEnv where
  page_load : Except PyErr Unit
  nav_holding_details : Bool
  nav_equity : Bool
  scrape_env : ScrapeEnv

/-- The `try` body of `scrape_portfolio_composition` (src/scrapers.py lines
54-86): load the page, bail out with the empty DataFrame when either
navigation step reports failure, run the paginated scrape (whose
`AttributeError` propagates here), and build the sorted DataFrame when any
data came back, the empty DataFrame otherwise. -/
def scrape_portfolio_attempt (env : CompEnv) : Except PyErr DF :=
  match env.page_load with
  | Except.error e => Except.error e
  | Except.ok _ =>
    if !env.nav_holding_details then Except.ok empty_holdings_df
    else if !env.nav_equity then Except.ok empty_holdings_df
    else
      match scrape_paginated_holdings env.scrape_env with
      | Except.error e => Except.error e
      | Except.ok data =>
        if data.isEmpty then Except.ok empty_holdings_df
        else Except.ok (success_df data)

/-- `scrape_portfolio_composition` (src/scrapers.py lines 40-90): the `try`
body wrapped in `except Exception`, which turns any raised error into the
empty DataFrame (lines 88-90). -/
def scrape_portfolio_composition (env : CompEnv) : DF :=
  match scrape_portfolio_attempt env with
  | Except.ok df => df
  | Except.error _ => empty_holdings_df

/-! ### Source embedding: src/main.py -/

/-- The names the module `src/scrapers.py` binds at top level: its imports
(lines 1-14) and the class `VanguardETFScraper` (line 17). -/
def scrapers_module_names : List String :=
  ["time", "pd", "webdriver", "By", "WebDriverWait", "EC", "Options",
   "TimeoutException", "NoSuchElementException",
   "ElementClickInterceptedException", "json", "re", "VanguardETFScraper"]

/-- The names `src/main.py` lines 2-9 import from the scrapers module. -/
def main_imported_names : List String :=
  ["VANGUARD_DEFAULT_URL", "dismiss_banners", "ensure_on_holdings_section",
   "find_holdings_table", "parse_ticker_weight", "scrape_all_pages_progressive"]

/-- Python `from module import a, b, ...`: the names bind in order, and the
first requested name the module does not define raises `ImportError`. -/
def from_import (module_names requested : List String) : Except PyErr Unit :=
  match requested.find? (fun n => !module_names.contains n) with
  | some n => Except.error (PyErr.importError n)
  | none => Except.ok ()

/-- The stages of `main()` that follow the import block of `src/main.py`:
`argparse` argument handling (lines 19-37) and the scraping work
(lines 39-95). -/
inductive MainStage where
  | parse_arguments
  | scraping
deriving DecidableEq

/-- Running `src/main.py`: the module-level `from scrapers import (...)`
executes before anything else; only when it succeeds does control reach the
rest of the program, abstracted as `after_imports` (it can never run for
this module pair).  Returns the stages reached and the final outcome. -/
def run_main (after_imports : List String → List MainStage × Except PyErr Unit)
    (argv : List String) : List MainStage × Except PyErr Unit :=
  match from_import scrapers_module_names main_imported_names with
  | Except.error e => ([], Except.error e)
  | Except.ok _ => after_imports argv

/-- A stand-in for the part of `main()` behind the import block (argument
parsing and scraping); unreachable for this module pair. -/
def c6_after_imports : List String → List MainStage × Except PyErr Unit :=
  fun _ => ([MainStage.parse_arguments, MainStage.scraping], Except.ok ())

/-- A concrete pagination environment: the table wait always succeeds,
every page yields one holding, and the first probe selector always finds an
enabled, displayed next control. -/
def c3_env : ScrapeEnv :=
  ⟨fun _ => Except.ok true,
   fun _ => some [⟨"AAA", "Alpha Corp", 1⟩],
   fun _ _ => some ⟨true, true⟩⟩

/-- A concrete composition environment: navigation succeeds and the single
page yields two holdings, the earlier-scraped one with the smaller
percentage; no next control exists, so the run stops after page one. -/
def c9_env : CompEnv :=
  ⟨Except.ok (), true, true,
   ⟨fun _ => Except.ok true,
    fun _ => some [⟨"AAA", "Alpha Corp", 1⟩, ⟨"BBB", "Beta Corp", 5⟩],
    fun _ _ => none⟩⟩

/-- A concrete composition environment whose page load raises. -/
def c10_env : CompEnv :=
  ⟨Except.error (PyErr.timeoutError "page load timed out"), true, true,
   ⟨fun _ => Except.ok false, fun _ => none, fun _ _ => none⟩⟩

/-! ### Theorems -/

/-- C1: the claim states that `extract_holdings_from_current_page` returns
`None` for every page state (true: the body has no return statement), and
that consequently `scrape_paginated_holdings` returns the empty list with
the loop stopping after the first page.  The second part fails: the loop
body first calls `self.wait_for_holdings_table()`, a method the class never
defines, so every run raises `AttributeError` during the first iteration
and the method raises instead of returning.  This counterexample evaluates
a concrete run: the result is the propagated `AttributeError`, not the
empty list. -/
theorem C1_counterexample :
    scrape_paginated_holdings (actual_env (fun _ => []) (fun _ _ => none))
      = Except.error wait_attribute_error ∧
    scrape_paginated_holdings (actual_env (fun _ => []) (fun _ _ => none))
      ≠ Except.ok [] :=
  ⟨rfl, fun h => Except.noConfusion h⟩

/-- C1 (amended): `extract_holdings_from_current_page` returns `None` for
every page state; `scrape_paginated_holdings`, however, never reaches it —
every run raises `AttributeError` at the undefined
`wait_for_holdings_table` call and terminates exceptionally during the
first page instead of returning the empty list. -/
theorem C1_extract_none_loop_raises
    (parsed_rows : List (String × String × Option Rat))
    (pages : Nat → List (String × String × Option Rat))
    (find_next : Nat → String → Option Control) :
    extract_holdings_from_current_page parsed_rows = none ∧
    scrape_paginated_holdings (actual_env pages find_next)
      = Except.error wait_attribute_error :=
  ⟨rfl, rfl⟩

/-- C2: for every invocation of the CLI entry point, the module-level
`from scrapers import (...)` of `src/main.py` raises `ImportError` (on the
first requested name, `VANGUARD_DEFAULT_URL`) before argument parsing or
any scraping begins — the reached-stage list is empty — because
`src/scrapers.py` defines none of the six requested names. -/
theorem C2_main_import_fails
    (after_imports : List String → List MainStage × Except PyErr Unit)
    (argv : List String) :
    run_main after_imports argv
      = ([], Except.error (PyErr.importError "VANGUARD_DEFAULT_URL")) ∧
    main_imported_names.all (fun n => !scrapers_module_names.contains n) = true :=
  ⟨rfl, by decide⟩

/-- The progressive file after `n` successful pages followed by a failing
page holds exactly the flushed prefix. -/
theorem scrape_progressive_flush (pages : List (List HoldingRecord)) :
    ∀ (file : List HoldingRecord) (rest : List PageResult),
      scrape_progressive_file file
          (pages.map PageResult.ok ++ PageResult.fail :: rest)
        = file ++ pages.flatten := by
  induction pages with
  | nil => intro file rest; simp [scrape_progressive_file]
  | cons p ps ih =>
    intro file rest
    simp only [List.map_cons, List.cons_append, scrape_progressive_file,
      List.append_eq]
    rw [ih, List.flatten_cons, List.append_assoc]

/-- C5: in the progressive scraper, each page's records are flushed to the
output file before the next page's navigation begins, so a run over `N + 1`
pages whose page `N + 1` fails leaves the output file holding exactly the
rows of the first `N` pages. -/
theorem C5_crash_preserves_completed_pages
    (pages : List (List HoldingRecord)) (rest : List PageResult) :
    scrape_all_pages_progressive
        (pages.map PageResult.ok ++ PageResult.fail :: rest)
      = pages.flatten := by
  unfold scrape_all_pages_progressive
  rw [scrape_progressive_flush]
  simp

/-- C6 (code-bug evidence): evaluating the entry point at a concrete
invocation shows the run dies with `ImportError` before any stage runs, so
the exit-status-0 branch of `main()` (reached only after at least one row
is extracted) is unreachable: no invocation can exit with status 0. -/
theorem C6_import_error_preempts_exit_logic :
    run_main c6_after_imports ["--out", "vt_holdings.csv"]
      = ([], Except.error (PyErr.importError "VANGUARD_DEFAULT_URL")) := rfl

/-- The page loop begins at most `fuel` iterations. -/
theorem scrape_pages_count_le (env : ScrapeEnv) (fuel : Nat) :
    ∀ page, (scrape_pages env fuel page).2 ≤ fuel := by
  induction fuel with
  | zero => intro page; simp [scrape_pages]
  | succ n ih =>
    intro page
    unfold scrape_pages
    split
    · simp
    · simp
    · split
      · simp
      · next hs _ =>
        by_cases he : hs.isEmpty
        · simp [he]
        · by_cases hg : go_to_next_page (env.find_next_element page)
          · simp only [he, hg, if_true, if_false, Bool.false_eq_true]
            split
            · next rest k heq =>
              have hk := ih (page + 1)
              rw [heq] at hk
              simpa using Nat.succ_le_succ hk
            · next e k heq =>
              have hk := ih (page + 1)
              rw [heq] at hk
              simpa using Nat.succ_le_succ hk
          · simp [he, hg]

/-- When no probe selector finds an enabled and displayed next control on
page `page`, the loop iteration there is the last one. -/
theorem scrape_pages_stops_without_next (env : ScrapeEnv) (n page : Nat)
    (hg : go_to_next_page (env.find_next_element page) = false) :
    (scrape_pages env (n + 1) page).2 = 1 := by
  unfold scrape_pages
  split
  · rfl
  · rfl
  · split
    · rfl
    · next hs _ =>
      by_cases he : hs.isEmpty <;> simp [he, hg]

/-- C3: the pagination driver in next-button mode terminates.  For every
environment the run begins at most `max_pages = 50` page iterations (the
safety cap holds even when an enabled next control appears on every page),
and whenever a run iterates past a page, `go_to_next_page` found an
enabled, displayed control matching a probe selector on that page — so the
loop stops as soon as no such control exists. -/
theorem C3_pagination_bounded (env : ScrapeEnv) :
    pages_scraped env ≤ max_pages ∧
    ∀ fuel page, 2 ≤ (scrape_pages env fuel page).2 →
      go_to_next_page (env.find_next_element page) = true := by
  refine ⟨scrape_pages_count_le env max_pages 1, ?_⟩
  intro fuel page h
  by_contra hg
  rw [Bool.not_eq_true] at hg
  cases fuel with
  | zero => simp [scrape_pages] at h
  | succ n =>
    rw [scrape_pages_stops_without_next env n page hg] at h
    omega

/-- C3 witness: a run through the concrete environment `c3_env` iterates
past page 1, so the theorem applies with its hypothesis discharged by
evaluation. -/
theorem C3_witness :
    pages_scraped c3_env ≤ max_pages ∧
    go_to_next_page (c3_env.find_next_element 1) = true :=
  ⟨(C3_pagination_bounded c3_env).1,
   (C3_pagination_bounded c3_env).2 2 1 (by decide)⟩

/-- The per-component keyword scan equals a first-match search over the
candidates in overall scan order. -/
theorem find_keyword_table_eq_flatten (components : List (List PageEl)) :
    find_keyword_table components
      = components.flatten.find? looks_like_holdings_table := by
  induction components with
  | nil => rfl
  | cons comp rest ih =>
    simp only [find_keyword_table, List.flatten_cons, List.find?_append, ih]
    cases comp.find? looks_like_holdings_table <;> simp [Option.or]

/-- C4 (amended): the holdings-table selector chooses the first candidate,
in component scan order, whose lowercased text contains any of the keywords
ticker, symbol, %, percentage, holding, equity; no both-roles requirement is
applied.  When no candidate matches a keyword it falls back to the first
table-like element of the alternative query, and only then returns absent. -/
theorem C4_first_keyword_candidate_wins (components : List (List PageEl))
    (fallback_elements : List PageEl) :
    find_angular_holdings_table components fallback_elements
      = match components.flatten.find? looks_like_holdings_table with
        | some t => some t
        | none => fallback_elements.find? is_table_like := by
  unfold find_angular_holdings_table
  rw [find_keyword_table_eq_flatten]

/-- C4 counterexample: a single candidate — a one-column table with header
`% of fund` and cell text `1.5`, so its visible text is `% of fund 1.5` —
resolves the Weight role (index 0) but not the Identifier role, yet
`find_angular_holdings_table` chooses it (its text contains the keyword
`%`).  The claim says a candidate exposing only one of the two required
roles is never chosen and that selection is absent when no candidate has
both; the code chooses this candidate. -/
theorem C4_counterexample :
    find_angular_holdings_table [[⟨"table", "% of fund 1.5"⟩]] []
      = some ⟨"table", "% of fund 1.5"⟩ ∧
    match_role ColumnRole.identifier ["% of fund"] = none ∧
    match_role ColumnRole.weight ["% of fund"] = some 0 := by
  refine ⟨rfl, by decide, by decide⟩

/-- Appending `%` yields a string ending in `%`. -/
theorem ends_with_pct_append (w : String) : ends_with_pct (w ++ "%") = true := by
  unfold ends_with_pct
  have h : (w ++ "%").toList = w.toList ++ ['%'] := by
    simp [String.toList, String.data_append]
  rw [h, List.getLast?_concat]
  rfl

/-- A bare decimal is non-empty and does not end in `%`. -/
theorem is_bare_decimal_shape (w : String) (h : is_bare_decimal w = true) :
    (w == "") = false ∧ ends_with_pct w = false := by
  unfold is_bare_decimal at h
  simp only [Bool.and_eq_true, Bool.not_eq_true'] at h
  obtain ⟨⟨⟨h1, h2⟩, _⟩, _⟩ := h
  constructor
  · rw [beq_eq_false_iff_ne]
    intro he
    subst he
    simp [String.toList] at h1
  · unfold ends_with_pct
    cases hl : w.toList.getLast? with
    | none => rfl
    | some c =>
      have hmem : c ∈ w.toList := List.mem_of_getLast?_eq_some hl
      have hc := List.all_eq_true.mp h2 c hmem
      simp only [Bool.or_eq_true, beq_iff_eq] at hc
      rcases hc with hd | hdot
      · simp only [beq_eq_false_iff_ne]
        intro hcp
        subst hcp
        simp at hd
      · subst hdot
        rfl

/-- C7: weight normalization is idempotent: a string already ending in `%`
is left unchanged, a bare decimal gains a single `%` suffix, `"3.5"` maps
to `"3.5%"`, `"3.5%"` maps to itself, and normalizing twice equals
normalizing once. -/
theorem C7_weight_normalization_idempotent :
    (∀ w, ends_with_pct w = true → normalize_weight w = w) ∧
    (∀ w, is_bare_decimal w = true → normalize_weight w = w ++ "%") ∧
    normalize_weight "3.5" = "3.5%" ∧
    normalize_weight "3.5%" = "3.5%" ∧
    (∀ w, normalize_weight (normalize_weight w) = normalize_weight w) := by
  have hid : ∀ w, ends_with_pct w = true → normalize_weight w = w := by
    intro w hw
    unfold normalize_weight
    rw [hw]
    simp
  have hbare : ∀ w, is_bare_decimal w = true → normalize_weight w = w ++ "%" := by
    intro w hw
    obtain ⟨h1, h2⟩ := is_bare_decimal_shape w hw
    unfold normalize_weight
    rw [h1, h2, hw]
    simp
  refine ⟨hid, hbare, by decide, by decide, ?_⟩
  intro w
  by_cases h : (!(w == "") && !(ends_with_pct w) && is_bare_decimal w) = true
  · have hw : normalize_weight w = w ++ "%" := by
      unfold normalize_weight
      rw [if_pos h]
    rw [hw, hid (w ++ "%") (ends_with_pct_append w)]
  · have hw : normalize_weight w = w := by
      unfold normalize_weight
      rw [if_neg h]
    rw [hw, hw]

/-- C7 witness: the theorem applied at the concrete weights `"3.5%"`
(already suffixed) and `"7"` (a bare decimal). -/
theorem C7_witness :
    normalize_weight "3.5%" = "3.5%" ∧ normalize_weight "7" = "7%" :=
  ⟨C7_weight_normalization_idempotent.1 "3.5%" (by decide),
   C7_weight_normalization_idempotent.2.1 "7" (by decide)⟩

/-- Every record the projection emits has a non-empty identifier. -/
theorem parse_ticker_weight_identifier_ne
    (headers : List String) (rows : List (List String))
    (records : List HoldingRecord)
    (hp : parse_ticker_weight headers rows = some records) :
    ∀ r ∈ records, r.identifier ≠ "" := by
  unfold parse_ticker_weight at hp
  split at hp
  · next ti wi _ _ =>
    injection hp with hp
    subst hp
    intro r hr
    rw [List.mem_filterMap] at hr
    obtain ⟨row, _, hf⟩ := hr
    split at hf
    · exact absurd hf (by simp)
    · split at hf
      · exact absurd hf (by simp)
      · next hne =>
        injection hf with hf
        subst hf
        simpa [beq_eq_false_iff_ne] using hne
  · exact absurd hp (by simp)

/-- C8: every `HoldingRecord` reaching the result set has a non-empty
identifier (a row whose stripped identifier is empty contributes no
record), and on the end-to-end scenario — headers Ticker / % of Fund /
Name, rows `AAPL,5.2%,Apple Inc` and a whitespace-identifier row — exactly
the single record for AAPL is produced. -/
theorem C8_records_have_nonempty_identifier :
    (∀ headers rows records,
       parse_ticker_weight headers rows = some records →
       ∀ r ∈ records, r.identifier ≠ "") ∧
    parse_ticker_weight ["Ticker", "% of Fund", "Name"]
        [["AAPL", "5.2%", "Apple Inc"], ["  ", "", ""]]
      = some [⟨"AAPL", "5.2%", some "Apple Inc"⟩] :=
  ⟨parse_ticker_weight_identifier_ne, by decide⟩

/-- C8 witness: the invariant applied to the scenario record, with the
projection evaluated by `decide`. -/
theorem C8_witness :
    (⟨"AAPL", "5.2%", some "Apple Inc"⟩ : HoldingRecord).identifier ≠ "" :=
  C8_records_have_nonempty_identifier.1 ["Ticker", "% of Fund", "Name"]
    [["AAPL", "5.2%", "Apple Inc"], ["  ", "", ""]]
    [⟨"AAPL", "5.2%", some "Apple Inc"⟩] (by decide)
    ⟨"AAPL", "5.2%", some "Apple Inc"⟩ (by decide)

/-- C9 counterexample: a concrete run scrapes two holdings, the
earlier-scraped one carrying the smaller percentage; the DataFrame
`scrape_portfolio_composition` returns holds them in the opposite order,
because line 79 sorts by Percentage descending.  This refutes the claim
that the final result preserves insertion order and performs no
reordering. -/
theorem C9_counterexample :
    scrape_paginated_holdings c9_env.scrape_env
      = Except.ok [⟨"AAA", "Alpha Corp", 1⟩, ⟨"BBB", "Beta Corp", 5⟩] ∧
    (scrape_portfolio_composition c9_env).rows
      = [⟨"BBB", "Beta Corp", 5⟩, ⟨"AAA", "Alpha Corp", 1⟩] := by
  constructor
  · rfl
  · decide

/-- C9 (amended): the paginated accumulation appends page results in
arrival order without deduplication, but the returned DataFrame is the
accumulated list sorted by Percentage descending: the sorted rows are a
permutation of the scraped data (every record kept, duplicates retained,
multiplicities unchanged) ordered by descending percentage — insertion
order is not preserved. -/
theorem C9_result_sorted_by_percentage (data : List Holding) :
    (sort_by_percentage_desc data).Perm data ∧
    List.Sorted holding_desc (sort_by_percentage_desc data) ∧
    ∀ h : Holding, (sort_by_percentage_desc data).count h = data.count h := by
  have hperm : (sort_by_percentage_desc data).Perm data :=
    List.perm_insertionSort holding_desc data
  exact ⟨hperm, List.sorted_insertionSort holding_desc data,
    fun h => hperm.count_eq h⟩

/-- A raised error inside the `try` body becomes the empty DataFrame. -/
theorem composition_of_error (env : CompEnv) (e : PyErr)
    (h : scrape_portfolio_attempt env = Except.error e) :
    scrape_portfolio_composition env = empty_holdings_df := by
  unfold scrape_portfolio_composition
  rw [h]

/-- Failing the Holding-details navigation yields the empty DataFrame. -/
theorem composition_of_nav_holding_false (env : CompEnv)
    (h : env.nav_holding_details = false) :
    scrape_portfolio_composition env = empty_holdings_df := by
  unfold scrape_portfolio_composition scrape_portfolio_attempt
  simp only [h]
  cases env.page_load <;> simp

/-- Failing the Equity navigation yields the empty DataFrame. -/
theorem composition_of_nav_equity_false (env : CompEnv)
    (h : env.nav_equity = false) :
    scrape_portfolio_composition env = empty_holdings_df := by
  unfold scrape_portfolio_composition scrape_portfolio_attempt
  simp only [h]
  cases env.page_load with
  | error e => simp
  | ok _ =>
    cases env.nav_holding_details <;> simp

/-- The method always returns one of exactly two DataFrame shapes. -/
theorem composition_shape (env : CompEnv) :
    scrape_portfolio_composition env = empty_holdings_df ∨
    ∃ data, scrape_paginated_holdings env.scrape_env = Except.ok data ∧
      data ≠ [] ∧ scrape_portfolio_composition env = success_df data := by
  unfold scrape_portfolio_composition scrape_portfolio_attempt
  cases env.page_load with
  | error e => left; rfl
  | ok _ =>
    cases env.nav_holding_details with
    | false => left; simp
    | true =>
      cases env.nav_equity with
      | false => left; simp
      | true =>
        cases hs : scrape_paginated_holdings env.scrape_env with
        | error e => left; simp
        | ok data =>
          cases hd : data.isEmpty with
          | true =>
            left
            simp [List.isEmpty_iff.mp hd]
          | false =>
            right
            refine ⟨data, rfl, ?_, ?_⟩
            · intro he
              subst he
              simp at hd
            · simp [hd]

/-- C10: `scrape_portfolio_composition` never propagates an exception: any
error raised inside the `try` body is caught and the method returns the
empty DataFrame with exactly the columns Ticker, Percentage, Name; either
navigation failure likewise returns that empty DataFrame; and every run
returns either that empty DataFrame or the sorted success DataFrame built
from non-empty scraped data. -/
theorem C10_composition_never_raises (env : CompEnv) :
    (∀ e, scrape_portfolio_attempt env = Except.error e →
       scrape_portfolio_composition env = empty_holdings_df) ∧
    (env.nav_holding_details = false →
       scrape_portfolio_composition env = empty_holdings_df) ∧
    (env.nav_equity = false →
       scrape_portfolio_composition env = empty_holdings_df) ∧
    empty_holdings_df.columns = ["Ticker", "Percentage", "Name"] ∧
    (scrape_portfolio_composition env = empty_holdings_df ∨
      ∃ data, scrape_paginated_holdings env.scrape_env = Except.ok data ∧
        data ≠ [] ∧ scrape_portfolio_composition env = success_df data) :=
  ⟨fun e he => composition_of_error env e he,
   fun h => composition_of_nav_holding_false env h,
   fun h => composition_of_nav_equity_false env h,
   rfl,
   composition_shape env⟩

/-- C10 witness: the theorem applied to the concrete environment whose page
load raises a timeout, the hypothesis discharged by evaluation. -/
theorem C10_witness :
    scrape_portfolio_composition c10_env = empty_holdings_df :=
  (C10_composition_never_raises c10_env).1
    (PyErr.timeoutError "page load timed out") rfl
